import Mathlib

/-!
Shallow embedding of the `subscription` package's container-event translator
(`translateContainerEvents`, `saveContainerEvent`, `getContainerEvent`,
`newContainerCache`, `trimImageIdPrefix` and the `newContainer*` builders),
together with the parts of their environment they use: the `container`
package's notification record and runtime-introspection calls, and the
`api` package's event types.

Modelling conventions:
 - Go maps become association lists (`StrMap`), with `Option` for a map that
   may be the Go `nil` map: `containerCache` is declared without an
   initializer in the source (hence nil until the one-time bootstrap), and a
   write to a nil Go map panics, which the embedding surfaces as the `none`
   result of `saveContainerEvent` (and the functions that call it).
 - `panic` (both the explicit `panic("Invalid value for ContainerState")` in
   the default switch branch and the nil-map write) is the outer `none` of a
   function's `Option` result; a normal run is `some`.
 - Go `len` on a string is its UTF-8 byte count, modelled by
   `String.utf8ByteSize`.
 - The `int32(ce.Pid)` conversion is `toInt32` (two's-complement wrap of an
   `Int` into `[-2^31, 2^31)`).
 - The package-level mutable variables (`containerCreated`,
   `containerStarted`, `containerCache`, `containerCacheOnce`) are bundled in
   `subscription.SubscriptionState` and threaded explicitly; `sync.Once` is
   the `containerCacheOnceDone` flag (the embedding is of the sequential
   behaviour, which is what the translator's merge algorithm assumes).
-/

/-- An association-list map with `String` keys, modelling a Go `map[string]V`. -/
def StrMap (α : Type) : Type := List (String × α)

instance {α : Type} [DecidableEq α] : DecidableEq (StrMap α) :=
  inferInstanceAs (DecidableEq (List (String × α)))

/-- Go map read `m[k]` (with its `ok` flag as `Option`). -/
def mapLookup {α : Type} : StrMap α → String → Option α
  | [], _ => none
  | (k1, v) :: rest, k => if k1 = k then some v else mapLookup rest k

/-- Go map write `m[k] = v` (on a non-nil map). -/
def mapInsert {α : Type} : StrMap α → String → α → StrMap α
  | [], k, v => [(k, v)]
  | (k1, v1) :: rest, k, v =>
      if k1 = k then (k, v) :: rest else (k1, v1) :: mapInsert rest k v

/-- Go `delete(m, k)` (keys are unique in maps built by `mapInsert`). -/
def mapErase {α : Type} : StrMap α → String → StrMap α
  | [], _ => []
  | (k1, v1) :: rest, k => if k1 = k then rest else (k1, v1) :: mapErase rest k

/-- Two's-complement wrap into `int32`, modelling Go's `int32(x)` conversion. -/
def toInt32 (n : Int) : Int := (n + 2 ^ 31) % 2 ^ 32 - 2 ^ 31

namespace container

/-- The lifecycle state tag carried by a raw `container.Event` notification.
The Go type is an integer type whose defined constants are
`ContainerCreated`, `ContainerStarted`, `ContainerStopped`,
`ContainerRemoved`; `InvalidState n` stands for any other value of the
underlying integer type. -/
inductive ContainerState where
  | ContainerCreated
  | ContainerStarted
  | ContainerStopped
  | ContainerRemoved
  | InvalidState (code : Nat)
deriving DecidableEq

/-- The `Config` sub-struct of a docker configuration record; the translator
reads its `Image` field (the declared image reference). -/
structure DockerConfigBase where
  Image : String := ""
deriving DecidableEq

/-- Modelled from the spec: a record of a container's static metadata as
reported by the runtime-introspection collaborator (the `container`
package's docker-config record, whose declaration is not among the shown
sources; the fields are exactly those the shown code reads:
`ID`, `Name`, `Image`, `Config.Image`). -/
structure DockerConfig where
  ID : String := ""
  Name : String := ""
  Image : String := ""
  Config : DockerConfigBase := {}
deriving DecidableEq

/-- A raw notification from the container event stream (`container.Event` in
the source; its declaration is not among the shown sources, the fields are
exactly those the translator reads: `ID`, `State`, `Name`, `ImageID`,
`Image`, `Pid`, `DockerConfig`, `OciConfig`, `ExitCode`). -/
structure Event where
  ID : String
  State : ContainerState
  Name : String := ""
  ImageID : String := ""
  Image : String := ""
  Pid : Int := 0
  DockerConfig : String := ""
  OciConfig : String := ""
  ExitCode : Int := 0
deriving DecidableEq

/-- Modelled from the spec: the runtime-introspection collaborator of the
`container` package (its implementation is not among the shown sources).
`GetDockerConfigList` enumerates existing containers once for cache
bootstrap and may fail; `GetDockerConfig` resolves a single container's
static metadata by ID and may fail. -/
structure Runtime where
  GetDockerConfigList : Except String (List DockerConfig)
  GetDockerConfig : String → Except String DockerConfig

end container

namespace api

/-- `api.ContainerEventType`: the canonical lifecycle phase tag. -/
inductive ContainerEventType where
  | CONTAINER_EVENT_TYPE_UNKNOWN
  | CONTAINER_EVENT_TYPE_CREATED
  | CONTAINER_EVENT_TYPE_RUNNING
  | CONTAINER_EVENT_TYPE_EXITED
  | CONTAINER_EVENT_TYPE_DESTROYED
deriving DecidableEq

/-- `api.ContainerEvent`: the produced/cached canonical container event.
Field defaults are the Go zero values. The Go field `Type` is spelled
`Typ` because `Type` is a Lean keyword. -/
structure ContainerEvent where
  Typ : ContainerEventType := .CONTAINER_EVENT_TYPE_UNKNOWN
  Name : String := ""
  ImageId : String := ""
  ImageName : String := ""
  HostPid : Int := 0
  DockerConfigJson : String := ""
  OciConfigJson : String := ""
  ExitCode : Int := 0
deriving DecidableEq

/-- `api.Event`: the outer envelope. The `Event` field models the
`Event_Container` oneof payload. Only the fields the shown code writes are
modelled. -/
structure Event where
  ContainerId : String := ""
  ContainerName : String := ""
  ImageId : String := ""
  ImageName : String := ""
  Event : Option ContainerEvent := none
deriving DecidableEq

end api

namespace subscription

/-- The package-level mutable state of the `subscription` package:
the two merge buffers, the metadata cache (`none` = Go nil map, i.e. not
yet bootstrapped or bootstrap failed), and the `sync.Once` flag guarding
cache bootstrap. -/
structure SubscriptionState where
  containerCreated : StrMap api.ContainerEvent := []
  containerStarted : StrMap api.ContainerEvent := []
  containerCache : Option (StrMap api.ContainerEvent) := none
  containerCacheOnceDone : Bool := false
deriving DecidableEq

/-- The state at process start: empty merge buffers, nil cache, bootstrap
not yet attempted. -/
def initialState : SubscriptionState := {}

/-- `newContainerCreated`. -/
def newContainerCreated (_cID : String) : api.ContainerEvent :=
  { Typ := .CONTAINER_EVENT_TYPE_CREATED }

/-- `newContainerRunning`. -/
def newContainerRunning (_cID : String) : api.ContainerEvent :=
  { Typ := .CONTAINER_EVENT_TYPE_RUNNING }

/-- `newContainerExited`. -/
def newContainerExited (_cID : String) : api.ContainerEvent :=
  { Typ := .CONTAINER_EVENT_TYPE_EXITED }

/-- `newContainerDestroyed`. -/
def newContainerDestroyed (_cID : String) : api.ContainerEvent :=
  { Typ := .CONTAINER_EVENT_TYPE_DESTROYED }

/-- `newContainerCache`: enumerate existing containers and build the
bootstrap cache; propagates the enumeration error. -/
def newContainerCache (env : container.Runtime) :
    Except String (StrMap api.ContainerEvent) :=
  match env.GetDockerConfigList with
  | .error err => .error err
  | .ok dockerConfigList =>
      .ok (dockerConfigList.foldl
        (fun contCache dockerConfig =>
          mapInsert contCache dockerConfig.ID
            { Typ := .CONTAINER_EVENT_TYPE_UNKNOWN
              Name := dockerConfig.Name
              ImageId := dockerConfig.Image
              ImageName := dockerConfig.Config.Image })
        [])

/-- The `containerCacheOnce.Do(func() { containerCache, _ = newContainerCache() })`
call shared by `saveContainerEvent` and `getContainerEvent`: on the first
invocation it installs the bootstrap cache, discarding the error (a failed
bootstrap leaves `containerCache` as the nil map). -/
def containerCacheOnceDo (env : container.Runtime) (s : SubscriptionState) :
    SubscriptionState :=
  if s.containerCacheOnceDone then s
  else
    { s with
      containerCacheOnceDone := true
      containerCache :=
        match newContainerCache env with
        | .ok m => some m
        | .error _ => none }

/-- `saveContainerEvent`: store a container event in the cache.
Returns `none` when the Go code panics: after a failed bootstrap the cache
is the nil map and `containerCache[contId] = ce` is a write to a nil map. -/
def saveContainerEvent (env : container.Runtime) (contId : String)
    (ce : api.ContainerEvent) (s : SubscriptionState) :
    Option SubscriptionState :=
  let s1 := containerCacheOnceDo env s
  match s1.containerCache with
  | none => none
  | some m => some { s1 with containerCache := some (mapInsert m contId ce) }

/-- `trimImageIdPrefix`: strip a leading `sha256:` digest marker.
`strings.HasPrefix(ImageId, "sha256:")` is the character-list prefix test
(equivalent to Go's byte-prefix test because `sha256:` is ASCII), and the
byte slice `ImageId[7:]` is `String.drop 7` (the 7 matched bytes are 7
one-byte characters). -/
def trimImageIdPrefix (ImageId : String) : String :=
  if "sha256:".data.isPrefixOf ImageId.data then ImageId.drop 7 else ImageId

/-- `getContainerEvent`: look a container up in the cache, falling through
to a single-container introspection call on a miss. The result triple is
(the Go `( *api.ContainerEvent, error)` pair as an `Except`, the state
after the call, the number of `GetDockerConfig` collaborator calls made);
the outer `Option` is `none` when the code panics (nil-map write inside
`saveContainerEvent`). Note the source's final statement is
`return nil, nil`, so the non-error result value is always `none`. -/
def getContainerEvent (env : container.Runtime) (contId : String)
    (s : SubscriptionState) :
    Option (Except String (Option api.ContainerEvent) × SubscriptionState × Nat) :=
  let s1 := containerCacheOnceDo env s
  let cached : Option api.ContainerEvent :=
    match s1.containerCache with
    | none => none
    | some m => mapLookup m contId
  match cached with
  | some _ => some (.ok none, s1, 0)
  | none =>
      match env.GetDockerConfig contId with
      | .error err => some (.error err, s1, 1)
      | .ok dc =>
          let ce : api.ContainerEvent :=
            { Name := dc.Name
              ImageId := trimImageIdPrefix dc.Image
              ImageName := dc.Config.Image }
          match saveContainerEvent env contId ce s1 with
          | none => none
          | some s2 => some (.ok none, s2, 1)

/-- Modelled from the spec: `newEventFromContainer` (not among the shown
sources) — the Envelope Builder's constructor of the outer event for a
container ID; the translator then copies name/image fields onto it and
attaches the payload. -/
def newEventFromContainer (cID : String) : api.Event :=
  { ContainerId := cID }

/-- The field-update rules of the `ContainerStarted` switch branch, applied
to the event being built (first notification) or reused (second):
non-zero PID overwrites, non-empty configuration blobs overwrite. -/
def startedFieldUpdates (ce : container.Event) (ece : api.ContainerEvent) :
    api.ContainerEvent :=
  let e1 := if ce.Pid ≠ 0 then { ece with HostPid := toInt32 ce.Pid } else ece
  let e2 :=
    if ce.DockerConfig.utf8ByteSize > 0
    then { e1 with DockerConfigJson := ce.DockerConfig } else e1
  if ce.OciConfig.utf8ByteSize > 0
  then { e2 with OciConfigJson := ce.OciConfig } else e2

/-- The `if ece != nil` tail of `translateContainerEvents`: the final
overwrite pass for the notification's configuration blobs, the cache write,
and the envelope construction for the emitted event. -/
def translateEmit (env : container.Runtime) (ce : container.Event)
    (ece : api.ContainerEvent) (s : SubscriptionState) :
    Option (Option api.Event × SubscriptionState) :=
  let ece1 :=
    if ce.DockerConfig.utf8ByteSize > 0
    then { ece with DockerConfigJson := ce.DockerConfig } else ece
  let ece2 :=
    if ce.OciConfig.utf8ByteSize > 0
    then { ece1 with OciConfigJson := ce.OciConfig } else ece1
  match saveContainerEvent env ce.ID ece2 s with
  | none => none
  | some s2 =>
      some (some { newEventFromContainer ce.ID with
                     ContainerName := ece2.Name
                     ImageId := ece2.ImageId
                     ImageName := ece2.ImageName
                     Event := some ece2 }, s2)

/-- `translateContainerEvents`: the translator state machine. The result is
`none` when the Go code panics (the `default:` branch's explicit panic on
an invalid `ContainerState`, or a nil-map cache write); otherwise
`some (out, s2)` where `out` is the emitted envelope (`none` = suppressed)
and `s2` the updated package state. -/
def translateContainerEvents (env : container.Runtime) (ce : container.Event)
    (s : SubscriptionState) : Option (Option api.Event × SubscriptionState) :=
  match ce.State with
  | .ContainerCreated =>
      match mapLookup s.containerCreated ce.ID with
      | some buffered =>
          let ece :=
            if ce.DockerConfig.utf8ByteSize > buffered.DockerConfigJson.utf8ByteSize
            then { buffered with DockerConfigJson := ce.DockerConfig } else buffered
          let s1 := { s with containerCreated := mapErase s.containerCreated ce.ID }
          translateEmit env ce ece s1
      | none =>
          let ece0 :=
            { newContainerCreated ce.ID with
                Name := ce.Name, ImageId := ce.ImageID, ImageName := ce.Image }
          let ece :=
            if ce.DockerConfig.utf8ByteSize > ece0.DockerConfigJson.utf8ByteSize
            then { ece0 with DockerConfigJson := ce.DockerConfig } else ece0
          let s1 := { s with containerCreated := mapInsert s.containerCreated ce.ID ece }
          match saveContainerEvent env ce.ID ece s1 with
          | none => none
          | some s2 => some (none, s2)
  | .ContainerStarted =>
      match mapLookup s.containerStarted ce.ID with
      | some buffered =>
          let ece := startedFieldUpdates ce buffered
          let s1 := { s with containerStarted := mapErase s.containerStarted ce.ID }
          translateEmit env ce ece s1
      | none =>
          let ece := startedFieldUpdates ce (newContainerRunning ce.ID)
          let s1 := { s with containerStarted := mapInsert s.containerStarted ce.ID ece }
          match saveContainerEvent env ce.ID ece s1 with
          | none => none
          | some s2 => some (none, s2)
  | .ContainerStopped =>
      let ece0 := newContainerExited ce.ID
      let ece1 := if ce.Pid ≠ 0 then { ece0 with HostPid := toInt32 ce.Pid } else ece0
      let ece2 :=
        if ce.DockerConfig.utf8ByteSize > 0
        then { ece1 with DockerConfigJson := ce.DockerConfig } else ece1
      let ece3 :=
        { ece2 with
            Name := ce.Name, ImageId := ce.ImageID, ImageName := ce.Image
            ExitCode := ce.ExitCode }
      translateEmit env ce ece3 s
  | .ContainerRemoved =>
      translateEmit env ce (newContainerDestroyed ce.ID) s
  | .InvalidState _ => none

/-- Feed a sequence of notifications through the translator, collecting the
emitted envelopes in order; `none` when any step panics. -/
def runTranslator (env : container.Runtime) (events : List container.Event)
    (s : SubscriptionState) : Option (List api.Event × SubscriptionState) :=
  match events with
  | [] => some ([], s)
  | e :: rest =>
      match translateContainerEvents env e s with
      | none => none
      | some (out, s1) =>
          match runTranslator env rest s1 with
          | none => none
          | some (outs, s2) => some (out.toList ++ outs, s2)

/-- A runtime whose bootstrap enumeration succeeds with no containers and
whose single lookups all fail. -/
def envEmpty : container.Runtime :=
  { GetDockerConfigList := .ok []
    GetDockerConfig := fun _ => .error "no such container" }

/-- A runtime whose bootstrap enumeration fails. -/
def envBootFail : container.Runtime :=
  { GetDockerConfigList := .error "cannot enumerate containers"
    GetDockerConfig := fun _ => .error "no such container" }

/-- A runtime whose bootstrap enumeration fails but whose single lookups
succeed. -/
def envBootFailOkGet : container.Runtime :=
  { GetDockerConfigList := .error "cannot enumerate containers"
    GetDockerConfig := fun contId => .ok { ID := contId, Name := "web" } }

/-- A runtime for the miss-path scenario: bootstrap succeeds with no
containers, and the single lookup for `c9` succeeds with a
`sha256:`-prefixed image ID. -/
def envMiss : container.Runtime :=
  { GetDockerConfigList := .ok []
    GetDockerConfig := fun contId =>
      if contId = "c9"
      then .ok { ID := "c9", Name := "web", Image := "sha256:abc123"
                 Config := { Image := "nginx" } }
      else .error "no such container" }

/-- A state in which the cache bootstrap has already run (with an empty
enumeration) and both merge buffers are empty. -/
def bootedState : SubscriptionState :=
  { containerCreated := [], containerStarted := []
    containerCache := some [], containerCacheOnceDone := true }

/-- First `Created` notification for container `c1`, with the strictly
longer configuration blob A. -/
def cC1a : container.Event :=
  { ID := "c1", State := .ContainerCreated, Name := "web", DockerConfig := "aaaa" }

/-- Second `Created` notification for container `c1`, with a strictly
shorter but non-empty configuration blob A. -/
def cC1b : container.Event :=
  { ID := "c1", State := .ContainerCreated, DockerConfig := "bb" }

/-- A `Removed` notification for container `c2` carrying a configuration
blob A. -/
def cC2rem : container.Event :=
  { ID := "c2", State := .ContainerRemoved, DockerConfig := "dcfg" }

/-- First `Created` notification for the round-trip scenario. -/
def cC3a : container.Event :=
  { ID := "c1", State := .ContainerCreated, Name := "web", ImageID := "img1"
    Image := "nginx", DockerConfig := "confblob" }

/-- Second `Created` notification for the round-trip scenario. -/
def cC3b : container.Event :=
  { ID := "c1", State := .ContainerCreated, DockerConfig := "confblobLonger" }

/-- The container event the translator emits (and caches) for the pair
`cC3a`, `cC3b`. -/
def cC3payload : api.ContainerEvent :=
  { Typ := .CONTAINER_EVENT_TYPE_CREATED, Name := "web", ImageId := "img1"
    ImageName := "nginx", DockerConfigJson := "confblobLonger" }

/-- A bare `Removed` notification for container `c2`. -/
def cC6rem : container.Event :=
  { ID := "c2", State := .ContainerRemoved }

end subscription

open subscription

/-- Reading back a key just written with `mapInsert` yields the written
value. -/
theorem mapLookup_insert {α : Type} (m : StrMap α) (k : String) (v : α) :
    mapLookup (mapInsert m k v) k = some v := by
  induction m with
  | nil => simp [mapInsert, mapLookup]
  | cons kv rest ih =>
      obtain ⟨k1, v1⟩ := kv
      by_cases h : k1 = k
      · simp [mapInsert, mapLookup, h]
      · simp [mapInsert, mapLookup, h, ih]

/-- A string of UTF-8 byte length zero is empty (each character occupies at
least one byte). -/
theorem eq_empty_of_utf8ByteSize_eq_zero {s : String} (h : s.utf8ByteSize = 0) :
    s = "" := by
  obtain ⟨data⟩ := s
  cases data with
  | nil => rfl
  | cons c cs =>
      exfalso
      have hgo : String.utf8ByteSize ⟨c :: cs⟩ =
          String.utf8ByteSize.go cs + c.utf8Size := rfl
      have := c.utf8Size_pos
      omega

/-- Go's `len(s) > 0` fails exactly on the empty string. -/
theorem not_utf8ByteSize_pos_iff {s : String} :
    ¬ s.utf8ByteSize > 0 ↔ s = "" := by
  constructor
  · intro h
    exact eq_empty_of_utf8ByteSize_eq_zero (by omega)
  · intro h
    subst h
    decide

/-- Go's `len(s) = 0` holds exactly on the empty string. -/
theorem utf8ByteSize_eq_zero_iff {s : String} : s.utf8ByteSize = 0 ↔ s = "" := by
  constructor
  · exact eq_empty_of_utf8ByteSize_eq_zero
  · intro h
    subst h
    rfl

/-- The empty string has UTF-8 byte length zero. -/
theorem utf8ByteSize_empty : String.utf8ByteSize "" = 0 := rfl

/-- The `int32` conversion is the identity on values already in range. -/
theorem toInt32_eq_self {n : Int} (h1 : -(2 ^ 31) ≤ n) (h2 : n < 2 ^ 31) :
    toInt32 n = n := by
  unfold toInt32
  rw [Int.emod_eq_of_lt (by omega) (by omega)]
  omega

/-- On a state whose cache is already bootstrapped, `saveContainerEvent`
just inserts the event into the cache map. -/
theorem saveContainerEvent_booted (env : container.Runtime) (contId : String)
    (ce : api.ContainerEvent) (s : SubscriptionState)
    (m : StrMap api.ContainerEvent)
    (honce : s.containerCacheOnceDone = true)
    (hcache : s.containerCache = some m) :
    saveContainerEvent env contId ce s =
      some { s with containerCache := some (mapInsert m contId ce) } := by
  unfold saveContainerEvent containerCacheOnceDo
  simp [honce, hcache]

/-- Claim C1, counterexample: for container `c1`, a first `Created`
notification with blob A `aaaa` (4 bytes) followed by a second with blob A
`bb` (2 bytes) yields exactly one emitted event of phase `Created` whose
configuration blob A is `bb` — the final overwrite pass in
`translateContainerEvents` replaces the longest-wins merge result with the
second notification's non-empty blob, so the emitted blob is NOT the longer
of the two. -/
theorem C1_counterexample :
    ("aaaa" : String).utf8ByteSize > ("bb" : String).utf8ByteSize ∧
    (runTranslator envEmpty [cC1a, cC1b] bootedState).map
        (fun r => r.1.map (fun ev => ev.Event.map
          (fun e => (e.Typ, e.DockerConfigJson))))
      = some [some (api.ContainerEventType.CONTAINER_EVENT_TYPE_CREATED, "bb")] ∧
    ("bb" : String) ≠ "aaaa" :=
  ⟨by decide, rfl, by decide⟩

/-- Claim C1 (amended): for every container ID, feeding the translator two
`Created` notifications for that ID in sequence (starting from a state with
a bootstrapped cache and no in-flight entry for the ID) yields exactly one
emitted event, of phase `Created`, whose configuration blob A equals the
second notification's blob when that is non-empty and otherwise the first
notification's blob. -/
theorem C1_amended (env : container.Runtime) (m : StrMap api.ContainerEvent)
    (s : SubscriptionState)
    (id nm1 iid1 img1 cfg1 oci1 nm2 iid2 img2 cfg2 oci2 : String)
    (pid1 pid2 ec1 ec2 : Int)
    (honce : s.containerCacheOnceDone = true)
    (hcache : s.containerCache = some m)
    (hbuf : mapLookup s.containerCreated id = none) :
    (runTranslator env
        [{ ID := id, State := .ContainerCreated, Name := nm1, ImageID := iid1,
           Image := img1, Pid := pid1, DockerConfig := cfg1, OciConfig := oci1,
           ExitCode := ec1 },
         { ID := id, State := .ContainerCreated, Name := nm2, ImageID := iid2,
           Image := img2, Pid := pid2, DockerConfig := cfg2, OciConfig := oci2,
           ExitCode := ec2 }] s).map
        (fun r => r.1.map (fun ev => ev.Event.map
          (fun e => (e.Typ, e.DockerConfigJson))))
      = some [some (api.ContainerEventType.CONTAINER_EVENT_TYPE_CREATED,
          if cfg2.utf8ByteSize > 0 then cfg2 else cfg1)] := by
  by_cases h1 : cfg1.utf8ByteSize > 0 <;>
    by_cases h2 : cfg2.utf8ByteSize > 0 <;>
    by_cases hm : cfg2.utf8ByteSize > cfg1.utf8ByteSize <;>
    simp_all [runTranslator, translateContainerEvents, translateEmit,
      saveContainerEvent_booted, mapLookup_insert, hbuf,
      newContainerCreated, not_utf8ByteSize_pos_iff, utf8ByteSize_eq_zero_iff,
      utf8ByteSize_empty] <;>
    (try (split_ifs <;> simp_all))

/-- Claim C1 (amended), witness at container `c1` with blobs `aaaa` then
`bb`. -/
theorem C1_amended_witness :
    bootedState.containerCacheOnceDone = true ∧
    bootedState.containerCache = some [] ∧
    mapLookup bootedState.containerCreated "c1" = none ∧
    (runTranslator envEmpty
        [{ ID := "c1", State := .ContainerCreated, Name := "web", ImageID := "",
           Image := "", Pid := 0, DockerConfig := "aaaa", OciConfig := "",
           ExitCode := 0 },
         { ID := "c1", State := .ContainerCreated, Name := "", ImageID := "",
           Image := "", Pid := 0, DockerConfig := "bb", OciConfig := "",
           ExitCode := 0 }] bootedState).map
        (fun r => r.1.map (fun ev => ev.Event.map
          (fun e => (e.Typ, e.DockerConfigJson))))
      = some [some (api.ContainerEventType.CONTAINER_EVENT_TYPE_CREATED,
          if ("bb" : String).utf8ByteSize > 0 then "bb" else "aaaa")] :=
  ⟨rfl, rfl, rfl,
    C1_amended envEmpty [] bootedState "c1" "web" "" "" "aaaa" "" "" "" "" "bb" ""
      0 0 0 0 rfl rfl rfl⟩

/-- Claim C2, counterexample: processing the single `Removed` notification
`cC2rem` (container `c2`, configuration blob A `dcfg`) emits one `Destroyed`
event that carries the blob (metadata beyond the phase tag), and writes that
event into the metadata cache under `c2` (the cache, previously empty, gains
an entry), contradicting both the no-metadata and the cache-untouched parts
of the claim. -/
theorem C2_counterexample :
    (runTranslator envEmpty [cC2rem] bootedState).map
        (fun r => (r.1.map (fun ev => ev.Event.map
            (fun e => (e.Typ, e.DockerConfigJson))),
          r.2.containerCache))
      = some ([some (api.ContainerEventType.CONTAINER_EVENT_TYPE_DESTROYED, "dcfg")],
          some [("c2", { Typ := .CONTAINER_EVENT_TYPE_DESTROYED,
                         DockerConfigJson := "dcfg" })]) ∧
    bootedState.containerCache = some [] ∧ ("dcfg" : String) ≠ "" :=
  ⟨rfl, rfl, by decide⟩

/-- Claim C2 (amended): processing a single `Removed` notification always
emits exactly one event of phase `Destroyed` whose name, image and numeric
fields are empty/zero; the notification's configuration blobs A and B (when
non-empty) are copied onto the event by the final overwrite pass; and the
emitted event is written into the metadata cache under the notification's
ID (the cache is not left untouched). -/
theorem C2_amended (env : container.Runtime) (m : StrMap api.ContainerEvent)
    (s : SubscriptionState) (id nm iid img cfg oci : String) (pid ec : Int)
    (honce : s.containerCacheOnceDone = true)
    (hcache : s.containerCache = some m) :
    runTranslator env
        [{ ID := id, State := .ContainerRemoved, Name := nm, ImageID := iid,
           Image := img, Pid := pid, DockerConfig := cfg, OciConfig := oci,
           ExitCode := ec }] s
      = some ([{ ContainerId := id, ContainerName := "", ImageId := "",
                 ImageName := "",
                 Event := some { Typ := .CONTAINER_EVENT_TYPE_DESTROYED,
                                 DockerConfigJson := cfg, OciConfigJson := oci } }],
              { s with containerCache := some (mapInsert m id
                  { Typ := .CONTAINER_EVENT_TYPE_DESTROYED,
                    DockerConfigJson := cfg, OciConfigJson := oci }) }) := by
  by_cases hd : cfg.utf8ByteSize > 0 <;> by_cases ho : oci.utf8ByteSize > 0 <;>
    simp_all [runTranslator, translateContainerEvents, translateEmit,
      saveContainerEvent_booted, newContainerDestroyed, newEventFromContainer,
      not_utf8ByteSize_pos_iff, utf8ByteSize_eq_zero_iff, utf8ByteSize_empty]

/-- Claim C2 (amended), witness at container `c2` with blob A `dcfg`. -/
theorem C2_amended_witness :
    bootedState.containerCacheOnceDone = true ∧
    bootedState.containerCache = some [] ∧
    runTranslator envEmpty
        [{ ID := "c2", State := .ContainerRemoved, Name := "", ImageID := "",
           Image := "", Pid := 0, DockerConfig := "dcfg", OciConfig := "",
           ExitCode := 0 }] bootedState
      = some ([{ ContainerId := "c2", ContainerName := "", ImageId := "",
                 ImageName := "",
                 Event := some { Typ := .CONTAINER_EVENT_TYPE_DESTROYED,
                                 DockerConfigJson := "dcfg", OciConfigJson := "" } }],
              { bootedState with containerCache := some (mapInsert [] "c2"
                  { Typ := .CONTAINER_EVENT_TYPE_DESTROYED,
                    DockerConfigJson := "dcfg", OciConfigJson := "" }) }) :=
  ⟨rfl, rfl,
    C2_amended envEmpty [] bootedState "c2" "" "" "" "dcfg" "" 0 0 rfl rfl⟩

/-- Claim C3, code-bug evaluation: feeding the `Created` pair `cC3a`, `cC3b`
for container `c1` emits exactly one event with payload `cC3payload` and
stores that same payload in the cache under `c1`, yet the subsequent
`getContainerEvent` for `c1` hits the cache (zero collaborator calls) and
still returns `Except.ok none` — the Go function ends in `return nil, nil`,
so the looked-up entry is never handed back and its fields cannot match the
emitted event. -/
theorem C3_code_bug_eval :
    (runTranslator envEmpty [cC3a, cC3b] bootedState).map
        (fun r => (r.1.map (fun ev => ev.Event), r.2.containerCache))
      = some ([some cC3payload], some [("c1", cC3payload)]) ∧
    ((runTranslator envEmpty [cC3a, cC3b] bootedState).bind
        (fun r => getContainerEvent envEmpty "c1" r.2)).map
        (fun g => (g.1, g.2.2))
      = some (.ok none, 0) :=
  ⟨rfl, rfl⟩

/-- Claim C4, code-bug evaluation: a lookup of `c9` against an
empty-after-bootstrap cache makes exactly one `GetDockerConfig` collaborator
call, constructs and stores a cache entry whose image ID has the `sha256:`
digest marker stripped (`sha256:abc123` becomes `abc123`), and a second
lookup makes zero further collaborator calls — but both lookups return
`Except.ok none` instead of the constructed entry (`return nil, nil` in the
source), so the entry is never returned to the caller. -/
theorem C4_code_bug_eval :
    (getContainerEvent envMiss "c9" initialState).map
        (fun g => (g.1, g.2.2, g.2.1.containerCache))
      = some (.ok none, 1,
          some [("c9", { Name := "web", ImageId := "abc123",
                         ImageName := "nginx" })]) ∧
    ((getContainerEvent envMiss "c9" initialState).bind
        (fun g => getContainerEvent envMiss "c9" g.2.1)).map
        (fun g => (g.1, g.2.2))
      = some (.ok none, 0) ∧
    trimImageIdPrefix "sha256:abc123" = "abc123" :=
  ⟨rfl, rfl, rfl⟩

/-- Claim C5: for every container ID, feeding the translator two `Started`
notifications for that ID (starting from a bootstrapped cache and no
in-flight entry for the ID) yields exactly one emitted event — the first is
suppressed — of phase `Running`, whose host PID equals the last non-zero
PID among the two notifications (zero if both are zero), and whose
configuration blobs A and B equal the second notification's values when
those are non-empty and otherwise the first notification's values. The PID
range bounds make Go's `int32(ce.Pid)` conversion the identity. -/
theorem C5_two_started_merge (env : container.Runtime)
    (m : StrMap api.ContainerEvent) (s : SubscriptionState)
    (id nm1 iid1 img1 cfg1 oci1 nm2 iid2 img2 cfg2 oci2 : String)
    (pid1 pid2 ec1 ec2 : Int)
    (honce : s.containerCacheOnceDone = true)
    (hcache : s.containerCache = some m)
    (hbuf : mapLookup s.containerStarted id = none)
    (hr1a : -(2 ^ 31) ≤ pid1) (hr1b : pid1 < 2 ^ 31)
    (hr2a : -(2 ^ 31) ≤ pid2) (hr2b : pid2 < 2 ^ 31) :
    (runTranslator env
        [{ ID := id, State := .ContainerStarted, Name := nm1, ImageID := iid1,
           Image := img1, Pid := pid1, DockerConfig := cfg1, OciConfig := oci1,
           ExitCode := ec1 },
         { ID := id, State := .ContainerStarted, Name := nm2, ImageID := iid2,
           Image := img2, Pid := pid2, DockerConfig := cfg2, OciConfig := oci2,
           ExitCode := ec2 }] s).map
        (fun r => r.1.map (fun ev => ev.Event.map
          (fun e => (e.Typ, e.HostPid, e.DockerConfigJson, e.OciConfigJson))))
      = some [some (api.ContainerEventType.CONTAINER_EVENT_TYPE_RUNNING,
          (if pid2 ≠ 0 then pid2 else pid1),
          (if cfg2.utf8ByteSize > 0 then cfg2 else cfg1),
          (if oci2.utf8ByteSize > 0 then oci2 else oci1))] := by
  by_cases hp1 : pid1 = 0 <;> by_cases hp2 : pid2 = 0 <;>
    by_cases h1 : cfg1.utf8ByteSize > 0 <;> by_cases h2 : cfg2.utf8ByteSize > 0 <;>
    by_cases hb1 : oci1.utf8ByteSize > 0 <;> by_cases hb2 : oci2.utf8ByteSize > 0 <;>
    simp_all [runTranslator, translateContainerEvents, translateEmit,
      startedFieldUpdates, saveContainerEvent_booted, mapLookup_insert,
      newContainerRunning, toInt32_eq_self hr1a hr1b, toInt32_eq_self hr2a hr2b,
      not_utf8ByteSize_pos_iff, utf8ByteSize_eq_zero_iff, utf8ByteSize_empty]

/-- Claim C5, witness at container `c3`: PIDs 101 then 0, blob A `d1` then
empty, blob B `o1` then `o2`. -/
theorem C5_two_started_merge_witness :
    bootedState.containerCacheOnceDone = true ∧
    bootedState.containerCache = some [] ∧
    mapLookup bootedState.containerStarted "c3" = none ∧
    -(2 ^ 31) ≤ (101 : Int) ∧ (101 : Int) < 2 ^ 31 ∧
    -(2 ^ 31) ≤ (0 : Int) ∧ (0 : Int) < 2 ^ 31 ∧
    (runTranslator envEmpty
        [{ ID := "c3", State := .ContainerStarted, Name := "", ImageID := "",
           Image := "", Pid := 101, DockerConfig := "d1", OciConfig := "o1",
           ExitCode := 0 },
         { ID := "c3", State := .ContainerStarted, Name := "", ImageID := "",
           Image := "", Pid := 0, DockerConfig := "", OciConfig := "o2",
           ExitCode := 0 }] bootedState).map
        (fun r => r.1.map (fun ev => ev.Event.map
          (fun e => (e.Typ, e.HostPid, e.DockerConfigJson, e.OciConfigJson))))
      = some [some (api.ContainerEventType.CONTAINER_EVENT_TYPE_RUNNING,
          (if (0 : Int) ≠ 0 then 0 else 101),
          (if ("" : String).utf8ByteSize > 0 then "" else "d1"),
          (if ("o2" : String).utf8ByteSize > 0 then "o2" else "o1"))] :=
  ⟨rfl, rfl, rfl, by decide, by decide, by decide, by decide,
    C5_two_started_merge envEmpty [] bootedState "c3" "" "" "" "d1" "o1" "" ""
      "" "" "o2" 101 0 0 0 rfl rfl rfl (by decide) (by decide) (by decide)
      (by decide)⟩

/-- Claim C6, code-bug evaluation: when the bootstrap enumeration fails
(`envBootFail`, `envBootFailOkGet`), the error is swallowed and the cache
is left as the Go nil map — and then (a) any cache write panics
(`saveContainerEvent` is a `containerCache[contId] = ce` assignment to a
nil map), (b) translating even a plain `Removed` notification panics for
the same reason, and (c) a `getContainerEvent` miss whose per-ID lookup
succeeds panics when it tries to store the entry. Cache operations do NOT
all succeed without crashing after a failed bootstrap. -/
theorem C6_code_bug_eval :
    saveContainerEvent envBootFail "c1"
        { Typ := .CONTAINER_EVENT_TYPE_CREATED } initialState = none ∧
    translateContainerEvents envBootFail cC6rem initialState = none ∧
    getContainerEvent envBootFailOkGet "c1" initialState = none :=
  ⟨rfl, rfl, rfl⟩

/-- Claim C7: a single `Stopped` notification, from any state with a
bootstrapped cache (merge buffers arbitrary — `Stopped` consults neither),
always yields exactly one emitted event of phase `Exited` whose exit code
equals the notification's exit code verbatim. -/
theorem C7_stopped_exit_code (env : container.Runtime)
    (m : StrMap api.ContainerEvent) (s : SubscriptionState)
    (id nm iid img cfg oci : String) (pid ec : Int)
    (honce : s.containerCacheOnceDone = true)
    (hcache : s.containerCache = some m) :
    (runTranslator env
        [{ ID := id, State := .ContainerStopped, Name := nm, ImageID := iid,
           Image := img, Pid := pid, DockerConfig := cfg, OciConfig := oci,
           ExitCode := ec }] s).map
        (fun r => r.1.map (fun ev => ev.Event.map (fun e => (e.Typ, e.ExitCode))))
      = some [some (api.ContainerEventType.CONTAINER_EVENT_TYPE_EXITED, ec)] := by
  by_cases hp : pid = 0 <;> by_cases hd : cfg.utf8ByteSize > 0 <;>
    by_cases ho : oci.utf8ByteSize > 0 <;>
    simp_all [runTranslator, translateContainerEvents, translateEmit,
      saveContainerEvent_booted, newContainerExited, newEventFromContainer,
      not_utf8ByteSize_pos_iff, utf8ByteSize_eq_zero_iff, utf8ByteSize_empty]

/-- Claim C7, witness at container `c4` with exit code 137. -/
theorem C7_stopped_exit_code_witness :
    bootedState.containerCacheOnceDone = true ∧
    bootedState.containerCache = some [] ∧
    (runTranslator envEmpty
        [{ ID := "c4", State := .ContainerStopped, Name := "n4", ImageID := "i4",
           Image := "im4", Pid := 7, DockerConfig := "dc4", OciConfig := "",
           ExitCode := 137 }] bootedState).map
        (fun r => r.1.map (fun ev => ev.Event.map (fun e => (e.Typ, e.ExitCode))))
      = some [some (api.ContainerEventType.CONTAINER_EVENT_TYPE_EXITED, 137)] :=
  ⟨rfl, rfl,
    C7_stopped_exit_code envEmpty [] bootedState "c4" "n4" "i4" "im4" "dc4" ""
      7 137 rfl rfl⟩

/-- Claim C8: a notification whose state tag lies outside the defined set
(`InvalidState n` for any underlying value `n`, any other fields, any
state) makes the translator signal the unrecoverable
`panic("Invalid value for ContainerState")` of the `default:` branch
(the embedding's `none` result) instead of returning a normal result. -/
theorem C8_invalid_state_panics (env : container.Runtime)
    (s : SubscriptionState) (id nm iid img cfg oci : String) (pid ec : Int)
    (n : Nat) :
    translateContainerEvents env
      { ID := id, State := .InvalidState n, Name := nm, ImageID := iid,
        Image := img, Pid := pid, DockerConfig := cfg, OciConfig := oci,
        ExitCode := ec } s = none := by
  rfl

/-- Claim C9: on a cache miss (bootstrapped cache without the ID) whose
on-demand `GetDockerConfig` fetch fails, `getContainerEvent` propagates the
error to its caller, makes exactly that one collaborator call, and returns
the state unchanged — no cache entry is created for the ID. -/
theorem C9_lookup_failure_propagates (env : container.Runtime)
    (m : StrMap api.ContainerEvent) (s : SubscriptionState)
    (contId err : String)
    (honce : s.containerCacheOnceDone = true)
    (hcache : s.containerCache = some m)
    (hmiss : mapLookup m contId = none)
    (hfail : env.GetDockerConfig contId = .error err) :
    getContainerEvent env contId s = some (.error err, s, 1) := by
  unfold getContainerEvent containerCacheOnceDo
  simp [honce, hcache, hmiss, hfail]

/-- Claim C9, witness at container `zz` against the empty bootstrapped
cache. -/
theorem C9_lookup_failure_propagates_witness :
    bootedState.containerCacheOnceDone = true ∧
    bootedState.containerCache = some [] ∧
    mapLookup ([] : StrMap api.ContainerEvent) "zz" = none ∧
    envEmpty.GetDockerConfig "zz" = .error "no such container" ∧
    getContainerEvent envEmpty "zz" bootedState
      = some (.error "no such container", bootedState, 1) :=
  ⟨rfl, rfl, rfl, rfl,
    C9_lookup_failure_propagates envEmpty [] bootedState "zz"
      "no such container" rfl rfl rfl rfl⟩

/-- Claim C10: for every pair of `Started` notifications merged for the
same container ID (bootstrapped cache, no in-flight entry), the emitted
`Running` event's container name, image ID and image name are empty — the
`Started` branch never populates them — and hence the envelope built for
the emission carries empty container-name and image identifier fields. -/
theorem C10_started_empty_metadata (env : container.Runtime)
    (m : StrMap api.ContainerEvent) (s : SubscriptionState)
    (id nm1 iid1 img1 cfg1 oci1 nm2 iid2 img2 cfg2 oci2 : String)
    (pid1 pid2 ec1 ec2 : Int)
    (honce : s.containerCacheOnceDone = true)
    (hcache : s.containerCache = some m)
    (hbuf : mapLookup s.containerStarted id = none) :
    (runTranslator env
        [{ ID := id, State := .ContainerStarted, Name := nm1, ImageID := iid1,
           Image := img1, Pid := pid1, DockerConfig := cfg1, OciConfig := oci1,
           ExitCode := ec1 },
         { ID := id, State := .ContainerStarted, Name := nm2, ImageID := iid2,
           Image := img2, Pid := pid2, DockerConfig := cfg2, OciConfig := oci2,
           ExitCode := ec2 }] s).map
        (fun r => r.1.map (fun ev => (ev.ContainerName, ev.ImageId, ev.ImageName,
          ev.Event.map (fun e => (e.Name, e.ImageId, e.ImageName)))))
      = some [("", "", "", some ("", "", ""))] := by
  by_cases hp1 : pid1 = 0 <;> by_cases hp2 : pid2 = 0 <;>
    by_cases h1 : cfg1.utf8ByteSize > 0 <;> by_cases h2 : cfg2.utf8ByteSize > 0 <;>
    by_cases hb1 : oci1.utf8ByteSize > 0 <;> by_cases hb2 : oci2.utf8ByteSize > 0 <;>
    simp_all [runTranslator, translateContainerEvents, translateEmit,
      startedFieldUpdates, saveContainerEvent_booted, mapLookup_insert,
      newContainerRunning, newEventFromContainer,
      not_utf8ByteSize_pos_iff, utf8ByteSize_eq_zero_iff, utf8ByteSize_empty]

/-- Claim C10, witness at container `c3` with populated notification name
and image fields (which the `Started` branch ignores). -/
theorem C10_started_empty_metadata_witness :
    bootedState.containerCacheOnceDone = true ∧
    bootedState.containerCache = some [] ∧
    mapLookup bootedState.containerStarted "c3" = none ∧
    (runTranslator envEmpty
        [{ ID := "c3", State := .ContainerStarted, Name := "webname",
           ImageID := "imgid", Image := "imgname", Pid := 101,
           DockerConfig := "d1", OciConfig := "o1", ExitCode := 0 },
         { ID := "c3", State := .ContainerStarted, Name := "webname2",
           ImageID := "imgid2", Image := "imgname2", Pid := 102,
           DockerConfig := "d2", OciConfig := "o2", ExitCode := 0 }]
        bootedState).map
        (fun r => r.1.map (fun ev => (ev.ContainerName, ev.ImageId, ev.ImageName,
          ev.Event.map (fun e => (e.Name, e.ImageId, e.ImageName)))))
      = some [("", "", "", some ("", "", ""))] :=
  ⟨rfl, rfl, rfl,
    C10_started_empty_metadata envEmpty [] bootedState "c3" "webname" "imgid"
      "imgname" "d1" "o1" "webname2" "imgid2" "imgname2" "d2" "o2" 101 102 0 0
      rfl rfl rfl⟩
